import Mathlib

/-!
# Verification of `cyipopt/deprecated.py`

A shallow embedding of the deprecation-shim module of CyIpopt and proofs of
its specified properties.  The module consists of three pieces:

* `generate_deprecation_warning_msg` — a pure formatter producing deprecation
  warning messages, raising `ValueError` on one rejected argument combination;
* `deprecated_warning` — a decorator wrapping a callable so that each call
  first emits a `FutureWarning` and then delegates;
* `problem` — a substitute class whose construction emits a `FutureWarning`
  and returns an instance of the replacement class `Problem`.

Python exceptions are modelled with `Except`, emitted warnings as an explicit
list returned alongside the result, and Python callables as records carrying
the attributes the module inspects (`__name__`, `__doc__`, `__objclass__`)
together with their call behaviour.
-/

/-- The only exception the module raises itself: Python's `ValueError`,
carrying its message. -/
inductive PyErr where
  | valueError (msg : String)
deriving DecidableEq, Repr

/-- Warning categories; the module only ever uses `FutureWarning`. -/
inductive WarningCategory where
  | futureWarning
deriving DecidableEq, Repr

/-- A warning as passed to `warnings.warn(msg, category)`. -/
structure Warning where
  category : WarningCategory
  message : String
deriving DecidableEq, Repr

/-- The message-formatting part of `generate_deprecation_warning_msg`
(source lines 107–114): the string assigned to `msg` after validation has
passed.  `class_name_msg` is `"in class '<class_name>' "` when `class_name`
is given and empty otherwise. -/
def deprecation_msg_text (what old_name new_name : String)
    (class_name : Option String) : String :=
  let class_name_msg :=
    match class_name with
    | some cn => "in class '" ++ cn ++ "' "
    | none => ""
  "The " ++ what ++ " named '" ++ old_name ++ "' " ++ class_name_msg ++
    "will soon be deprecated in CyIpopt. Please replace all uses and use '" ++
    new_name ++ "' going forward."

/-- The function `generate_deprecation_warning_msg(what, old_name, new_name,
class_name=None)` from `cyipopt/deprecated.py`: raises `ValueError("Incorrect use of function
arguments.")` when `what == "class"` and `class_name is not None`, otherwise
returns the formatted message. -/
def generate_deprecation_warning_msg (what old_name new_name : String)
    (class_name : Option String := none) : Except PyErr String :=
  if what = "class" ∧ class_name ≠ none then
    Except.error (PyErr.valueError "Incorrect use of function arguments.")
  else
    Except.ok (deprecation_msg_text what old_name new_name class_name)

/-- The message shape stated by the specification (written from the spec's
words, for comparison against the source embedding): the exact template
`"The {what} named '{old_name}' in class '{class_name}' will soon be
deprecated in CyIpopt. Please replace all uses and use '{new_name}' going
forward."`, where the clause `"in class '{class_name}' "` is included exactly
when `class_name` is present and replaced by the empty string otherwise. -/
def spec_deprecation_msg (what old_name new_name : String)
    (class_name : Option String) : String :=
  "The " ++ what ++ " named '" ++ old_name ++ "' " ++
    (match class_name with
     | some cn => "in class '" ++ cn ++ "' "
     | none => "") ++
    "will soon be deprecated in CyIpopt. Please replace all uses and use '" ++
    new_name ++ "' going forward."

/-- A Python callable as seen by the decorator: the attributes the module
reads — `__name__`, `__doc__`, and `__objclass__` (as the owning class's
`__name__` when the attribute is present, `none` when `hasattr` fails) —
together with its call behaviour, which may raise. -/
structure Callable (α β : Type) where
  name : String
  doc : Option String
  objclass : Option String
  call : α → Except PyErr β

/-- The metadata `functools.wraps` copies onto the wrapper that claims here
are about: `__name__` and `__doc__` of the wrapped callable, copied at
decoration time. -/
structure WrapperMeta where
  name : String
  doc : Option String
deriving DecidableEq, Repr

/-- The body of `wrapper` inside `deprecated_warning` (source lines 31–41):
check `hasattr(func, "__objclass__")` on the call-time view of the wrapped
callable, build the message with `what="method"` and the owning class's name
or with `what="function"` and no class name, emit the message as a
`FutureWarning`, then delegate to `func` with the arguments unchanged.
Returns the warnings emitted by the wrapper together with the delegated
result; a `ValueError` from the formatter would propagate before any warning
is emitted. -/
def wrapper_body {α β : Type} (new_name old_name : String)
    (func : Callable α β) (a : α) : List Warning × Except PyErr β :=
  match func.objclass with
  | some cls =>
    match generate_deprecation_warning_msg "method" old_name new_name (some cls) with
    | Except.ok msg => ([⟨WarningCategory.futureWarning, msg⟩], func.call a)
    | Except.error e => ([], Except.error e)
  | none =>
    match generate_deprecation_warning_msg "function" old_name new_name none with
    | Except.ok msg => ([⟨WarningCategory.futureWarning, msg⟩], func.call a)
    | Except.error e => ([], Except.error e)

/-- The decorator `deprecated_warning(new_name)` applied to `func` (source
lines 28–44).
At decoration time `functools.wraps(func)` copies `func`'s metadata onto the
wrapper and `old_name = getattr(func, "__name__")` is evaluated once.  The
returned wrapper closes over that captured `old_name` but reads
`__objclass__` on each invocation; its first argument is therefore the
call-time view of the wrapped callable (which coincides with `func` unless
the callable's attributes were mutated after decoration). -/
def deprecated_warning {α β : Type} (new_name : String) (func : Callable α β) :
    WrapperMeta × (Callable α β → α → List Warning × Except PyErr β) :=
  (⟨func.name, func.doc⟩,
   fun funcAtCall a => wrapper_body new_name func.name funcAtCall a)

/-- Modelled from the spec: the replacement class `Problem` is imported from
`ipopt_wrapper`, which is not among the sources here.  Per the spec it is an
external collaborator "constructible with arbitrary positional/keyword
arguments, whose interface and semantics are entirely out of scope"; its
construction records the forwarded arguments. -/
structure Problem (α : Type) where
  args : α
deriving DecidableEq, Repr

/-- The constructor `problem.__new__` (source lines 70–73): build the message for
`("class", "problem", "Problem")` with no class name, emit it as a
`FutureWarning`, and return `Problem(*args, **kwargs)` with all arguments
forwarded unchanged.  Returns the emitted warnings with the result; a
`ValueError` from the formatter would propagate before any warning. -/
def problem_new {α : Type} (a : α) : List Warning × Except PyErr (Problem α) :=
  match generate_deprecation_warning_msg "class" "problem" "Problem" none with
  | Except.ok msg => ([⟨WarningCategory.futureWarning, msg⟩], Except.ok ⟨a⟩)
  | Except.error e => ([], Except.error e)

/-- Effectful view of `generate_deprecation_warning_msg`, threading the
process-wide warning state (the list of warnings emitted so far through the
`warnings` module).  The source body (lines 104–114) performs no call to
`warnings.warn` and mutates no other state, so the state passes through
untouched while the result is computed from the arguments alone. -/
def generate_deprecation_warning_msg_eff (σ : List Warning)
    (what old_name new_name : String) (class_name : Option String) :
    List Warning × Except PyErr String :=
  (σ, generate_deprecation_warning_msg what old_name new_name class_name)

/-- The character list `"in class"`, the substring the spec's §8 property is
about. -/
def inClassPat : List Char := "in class".data

/- ### Helper lemmas -/

theorem not_class_and_of_ne {what : String} {c : Option String}
    (h : what ≠ "class") : ¬ (what = "class" ∧ c ≠ none) :=
  fun hc => h hc.1

theorem prefix_of_append_cons {q : Char} {p a b : List Char} (hq : q ∉ p) :
    p <+: a ++ q :: b → p <+: a := by
  induction a generalizing p with
  | nil =>
    intro hp
    cases p with
    | nil => exact List.nil_prefix
    | cons c p' =>
      rw [List.nil_append, List.cons_prefix_cons] at hp
      obtain ⟨rfl, -⟩ := hp
      exact absurd (List.mem_cons_self c p') hq
  | cons x a' ih =>
    intro hp
    cases p with
    | nil => exact List.nil_prefix
    | cons c p' =>
      rw [List.cons_append, List.cons_prefix_cons] at hp
      rw [hp.1, List.cons_prefix_cons]
      exact ⟨rfl, ih (fun hm => hq (List.mem_cons_of_mem _ hm)) hp.2⟩

theorem infix_of_append_cons {q : Char} {p a b : List Char} (hq : q ∉ p) :
    p <:+: a ++ q :: b → p <:+: a ∨ p <:+: b := by
  induction a generalizing p with
  | nil =>
    intro hp
    rw [List.nil_append, List.infix_cons_iff] at hp
    rcases hp with hp | hp
    · have hpn : p <+: ([] : List Char) :=
        prefix_of_append_cons hq (by simpa using hp)
      rw [List.prefix_nil] at hpn
      exact Or.inl (hpn ▸ List.nil_infix)
    · exact Or.inr hp
  | cons x a' ih =>
    intro hp
    rw [List.cons_append, List.infix_cons_iff] at hp
    rcases hp with hp | hp
    · have hpa : p <+: x :: a' := prefix_of_append_cons hq (by simpa using hp)
      exact Or.inl hpa.isInfix
    · rcases ih hq hp with h | h
      · exact Or.inl (h.trans (List.suffix_cons x a').isInfix)
      · exact Or.inr h

theorem not_infix_quoted_template {p : List Char} {q : Char} {A M T o n : List Char}
    (hq : q ∉ p) (hA : ¬ p <:+: A) (ho : ¬ p <:+: o) (hM : ¬ p <:+: M)
    (hn : ¬ p <:+: n) (hT : ¬ p <:+: T) :
    ¬ p <:+: A ++ q :: (o ++ q :: (M ++ q :: (n ++ q :: T))) := by
  intro h
  rcases infix_of_append_cons hq h with h | h
  · exact hA h
  · rcases infix_of_append_cons hq h with h | h
    · exact ho h
    · rcases infix_of_append_cons hq h with h | h
      · exact hM h
      · rcases infix_of_append_cons hq h with h | h
        · exact hn h
        · exact hT h

theorem msg_data_split (w o n : String) :
    (deprecation_msg_text w o n none).data =
      ("The ".data ++ w.data ++ " named ".data) ++ '\'' ::
        (o.data ++ '\'' ::
          (" will soon be deprecated in CyIpopt. Please replace all uses and use ".data ++ '\'' ::
            (n.data ++ '\'' :: " going forward.".data))) := by
  have e1 : " named '".data = " named ".data ++ ['\''] := rfl
  have e2 : "' ".data = ['\''] ++ [' '] := rfl
  have e3 : ("will soon be deprecated in CyIpopt. Please replace all uses and use '").data =
      "will soon be deprecated in CyIpopt. Please replace all uses and use ".data ++ ['\''] := rfl
  have e4 : "' going forward.".data = ['\''] ++ " going forward.".data := rfl
  have e5 : (" will soon be deprecated in CyIpopt. Please replace all uses and use ").data =
      [' '] ++ "will soon be deprecated in CyIpopt. Please replace all uses and use ".data := rfl
  simp only [deprecation_msg_text, String.data_append, e1, e2, e3, e4, e5]
  simp [List.append_assoc]

/- ### Claim theorems -/

/-- C1: `generate_deprecation_warning_msg` raises the invalid-argument
`ValueError` with message "Incorrect use of function arguments." if and only
if `what = "class"` and `class_name` is present, regardless of `class_name`'s
value; in every other case it returns a string and raises no error. -/
theorem generate_msg_error_iff (what old_name new_name : String)
    (class_name : Option String) :
    ((∃ e, generate_deprecation_warning_msg what old_name new_name class_name =
        Except.error e) ↔ (what = "class" ∧ class_name ≠ none)) ∧
    ((∃ s, generate_deprecation_warning_msg what old_name new_name class_name =
        Except.ok s) ↔ ¬ (what = "class" ∧ class_name ≠ none)) ∧
    (∀ e, generate_deprecation_warning_msg what old_name new_name class_name =
        Except.error e →
      e = PyErr.valueError "Incorrect use of function arguments.") := by
  unfold generate_deprecation_warning_msg
  by_cases h : what = "class" ∧ class_name ≠ none
  · simp [h]
  · simp [h]

/-- Witness for C1: the rejected combination errors and an accepted one
returns a string. -/
theorem generate_msg_error_iff_witness :
    (∃ e, generate_deprecation_warning_msg "class" "problem" "Problem" (some "C") =
        Except.error e) ∧
    (∃ s, generate_deprecation_warning_msg "function" "problem" "Problem" none =
        Except.ok s) :=
  ⟨(generate_msg_error_iff "class" "problem" "Problem" (some "C")).1.mpr
      ⟨rfl, by decide⟩,
   (generate_msg_error_iff "function" "problem" "Problem" none).2.1.mpr
      (by decide)⟩

/-- C2: for every argument combination not rejected by validation, the
formatter returns exactly the spec's template string, with the clause
"in class '<class_name>' " included exactly when `class_name` is present and
replaced by the empty string otherwise. -/
theorem generate_msg_exact_text (what old_name new_name : String)
    (class_name : Option String)
    (h : ¬ (what = "class" ∧ class_name ≠ none)) :
    generate_deprecation_warning_msg what old_name new_name class_name =
      Except.ok (spec_deprecation_msg what old_name new_name class_name) := by
  unfold generate_deprecation_warning_msg
  rw [if_neg h]
  cases class_name <;> rfl

/-- Witness for C2: the spec's concrete example evaluates to the stated
string. -/
theorem generate_msg_exact_text_witness :
    generate_deprecation_warning_msg "function" "problem" "Problem" none =
      Except.ok "The function named 'problem' will soon be deprecated in CyIpopt. Please replace all uses and use 'Problem' going forward." :=
  (generate_msg_exact_text "function" "problem" "Problem" none (by decide)).trans
    rfl

/-- C3: constructing the deprecated class `problem` first emits exactly one
FutureWarning whose message is the formatter's output for
`("class", "problem", "Problem")` with no class name, then returns an instance
of the replacement class `Problem` with all arguments forwarded unchanged. -/
theorem problem_new_delegates {α : Type} (a : α) :
    ∃ msg, generate_deprecation_warning_msg "class" "problem" "Problem" none =
        Except.ok msg ∧
      problem_new a = ([⟨WarningCategory.futureWarning, msg⟩], Except.ok ⟨a⟩) :=
  ⟨_, rfl, rfl⟩

/-- C4: apart from the warning emission, the wrapped call is observationally
equal to calling the wrapped callable directly: all arguments are forwarded
verbatim and the delegated result — normal return or raised error — is
returned unchanged, whatever the call-time view of the callable. -/
theorem wrapper_forwards {α β : Type} (new_name : String)
    (func funcAtCall : Callable α β) (a : α) :
    ((deprecated_warning new_name func).2 funcAtCall a).2 = funcAtCall.call a := by
  obtain ⟨nm, doc, objclass, call⟩ := funcAtCall
  cases objclass <;> rfl

/-- C5: the emitted message uses the wrapped callable's declared name captured
at decoration time as `old_name`, while the function-versus-method distinction
is made from the callable's call-time `__objclass__`: `what = "method"` with
the owning class's name when present, `what = "function"` with no class name
otherwise. -/
theorem wrapper_message_shape {α β : Type} (new_name : String)
    (func funcAtCall : Callable α β) (a : α) :
    ((deprecated_warning new_name func).2 funcAtCall a).1 =
      [⟨WarningCategory.futureWarning,
        deprecation_msg_text
          (match funcAtCall.objclass with
           | some _ => "method"
           | none => "function")
          func.name new_name funcAtCall.objclass⟩] := by
  obtain ⟨nm, doc, objclass, call⟩ := funcAtCall
  cases objclass <;> rfl

/-- C6: every invocation of a wrapped callable emits exactly one warning, of
the forward-compatibility category FutureWarning; calling it twice emits
exactly two warnings, one per call, with identical message text. -/
theorem wrapper_warns_once_per_call {α β : Type} (new_name : String)
    (func : Callable α β) (a₁ a₂ : α) :
    (((deprecated_warning new_name func).2 func a₁).1.length = 1) ∧
    (((deprecated_warning new_name func).2 func a₁).1.all
      (fun w => decide (w.category = WarningCategory.futureWarning)) = true) ∧
    (((deprecated_warning new_name func).2 func a₁).1 =
      ((deprecated_warning new_name func).2 func a₂).1) ∧
    ((((deprecated_warning new_name func).2 func a₁).1 ++
      ((deprecated_warning new_name func).2 func a₂).1).length = 2) := by
  obtain ⟨nm, doc, objclass, call⟩ := func
  cases objclass <;> exact ⟨rfl, rfl, rfl, rfl⟩

/-- C7 counterexample: at `old_name = "in class"` (with `what = "function"`
and no class name) the formatter returns a string that does contain the
substring "in class", refuting the claim's universal quantification over all
strings `old_name` and `new_name`. -/
theorem generate_msg_in_class_counterexample :
    ∃ s, generate_deprecation_warning_msg "function" "in class" "New" none =
        Except.ok s ∧ inClassPat <:+: s.data :=
  ⟨"The function named 'in class' will soon be deprecated in CyIpopt. Please replace all uses and use 'New' going forward.",
   rfl, by decide⟩

/-- C7 (amended): for `what ∈ {"function", "method"}` with no `class_name`
supplied, and any `old_name` and `new_name` that do not themselves contain the
substring "in class", the formatter returns a string that does not contain the
substring "in class". -/
theorem generate_msg_no_in_class (w o n : String)
    (hw : w = "function" ∨ w = "method")
    (ho : ¬ inClassPat <:+: o.data) (hn : ¬ inClassPat <:+: n.data)
    (s : String)
    (hs : generate_deprecation_warning_msg w o n none = Except.ok s) :
    ¬ inClassPat <:+: s.data := by
  have hcond : ¬ (w = "class" ∧ (none : Option String) ≠ none) := by
    rintro ⟨-, h⟩
    exact h rfl
  rw [generate_deprecation_warning_msg, if_neg hcond] at hs
  obtain rfl : deprecation_msg_text w o n none = s := Except.ok.inj hs
  rw [msg_data_split]
  exact not_infix_quoted_template (by decide)
    (by rcases hw with rfl | rfl <;> decide) ho (by decide) hn (by decide)

/-- Witness for the amended C7 at the spec's example arguments. -/
theorem generate_msg_no_in_class_witness :
    ¬ inClassPat <:+:
      ("The function named 'problem' will soon be deprecated in CyIpopt. Please replace all uses and use 'Problem' going forward." : String).data :=
  generate_msg_no_in_class "function" "problem" "Problem" (Or.inl rfl)
    (by decide) (by decide) _ rfl

/-- C8: the formatter is a pure, deterministic function of its four inputs:
it leaves the ambient warning state untouched, and two calls with equal
arguments — from arbitrary states — produce equal results. -/
theorem generate_msg_pure (σ σ' : List Warning) (w w' o o' n n' : String)
    (c c' : Option String) (hw : w = w') (ho : o = o') (hn : n = n')
    (hc : c = c') :
    (generate_deprecation_warning_msg_eff σ w o n c).1 = σ ∧
    (generate_deprecation_warning_msg_eff σ w o n c).2 =
      (generate_deprecation_warning_msg_eff σ' w' o' n' c').2 := by
  subst hw
  subst ho
  subst hn
  subst hc
  exact ⟨rfl, rfl⟩

/-- Witness for C8 at concrete inputs and two different ambient states. -/
theorem generate_msg_pure_witness :
    (generate_deprecation_warning_msg_eff [⟨WarningCategory.futureWarning, "w"⟩]
        "function" "a" "b" none).1 = [⟨WarningCategory.futureWarning, "w"⟩] ∧
    (generate_deprecation_warning_msg_eff [⟨WarningCategory.futureWarning, "w"⟩]
        "function" "a" "b" none).2 =
      (generate_deprecation_warning_msg_eff [] "function" "a" "b" none).2 :=
  generate_msg_pure [⟨WarningCategory.futureWarning, "w"⟩] [] "function"
    "function" "a" "a" "b" "b" none none rfl rfl rfl rfl

/-- C9: the formatter never validates the value of `what`: for every `what`
different from "class" — including values outside the documented set — and
every `class_name`, present or absent, the call returns normally with `what`
interpolated into the message; contrary to the function's own docstring,
supplying `class_name` together with `what ≠ "class"` is accepted. -/
theorem generate_msg_accepts_any_what (what old_name new_name : String)
    (class_name : Option String) (h : what ≠ "class") :
    generate_deprecation_warning_msg what old_name new_name class_name =
      Except.ok (deprecation_msg_text what old_name new_name class_name) := by
  unfold generate_deprecation_warning_msg
  exact if_neg (not_class_and_of_ne h)

/-- Witness for C9: a present `class_name` together with `what = "method"` (a
combination the docstring says should raise) is accepted, and an arbitrary
`what` value is interpolated verbatim into the returned message. -/
theorem generate_msg_accepts_any_what_witness :
    generate_deprecation_warning_msg "method" "f" "g" (some "C") =
      Except.ok "The method named 'f' in class 'C' will soon be deprecated in CyIpopt. Please replace all uses and use 'g' going forward." :=
  (generate_msg_accepts_any_what "method" "f" "g" (some "C") (by decide)).trans
    rfl

/-- C10: the wrapper returned by `deprecated_warning` carries the wrapped
callable's metadata via `functools.wraps`: its `__name__` and its docstring
equal the wrapped callable's, so decoration changes nothing about the
callable's identity attributes other than its behaviour on call. -/
theorem wrapper_preserves_metadata {α β : Type} (new_name : String)
    (func : Callable α β) :
    ((deprecated_warning new_name func).1.name = func.name) ∧
    ((deprecated_warning new_name func).1.doc = func.doc) :=
  ⟨rfl, rfl⟩
